import Mathlib

/-!
Shallow embedding of the fractal-generation core of `src/main.rs`
(bevy_3d_fractals).  The `f32` scalar type is modelled by an arbitrary
linear ordered field `K`; the irrational constants the source computes
with `f32::sqrt` (`sqrt 2`, `sqrt 3`, `sqrt 6`) are passed in as
parameters, since none of the verified claims depends on their values.
Entity spawning (`commands.spawn`) is modelled by appending the spawned
placement to the returned list, in the order the source spawns them.
-/

namespace Fractal3D

/-- Model of `bevy`'s `Vec3`: a 3-component vector over the scalar field. -/
structure Vec3 (K : Type) where
  x : K
  y : K
  z : K
deriving DecidableEq

instance {K : Type} [Add K] : Add (Vec3 K) :=
  ⟨fun a b => ⟨a.x + b.x, a.y + b.y, a.z + b.z⟩⟩

instance {K : Type} [Mul K] : HMul (Vec3 K) K (Vec3 K) :=
  ⟨fun v c => ⟨v.x * c, v.y * c, v.z * c⟩⟩

/-- Model of `Vec3::splat`. -/
def Vec3.splat {K : Type} (c : K) : Vec3 K := ⟨c, c, c⟩

/-- Model of the part of `bevy`'s `Transform` the generators set: a
translation and a (componentwise) scale; the rotation is always left at
its default in the source, so it is omitted. -/
structure Transform (K : Type) where
  translation : Vec3 K
  scale : Vec3 K
deriving DecidableEq

/-- The four fixed corner offsets of `create_tetrahedron`
(src/main.rs lines 128-133), in source order: front right, front left,
back middle, top.  `sqrt2` stands for the source's `(2.0_f32).sqrt()`. -/
def sierpinskiOffsets {K : Type} [LinearOrderedField K] (sqrt2 : K) : List (Vec3 K) :=
  [⟨1, 0, -(1 / sqrt2)⟩, ⟨-1, 0, -(1 / sqrt2)⟩, ⟨0, 0, 1 / sqrt2⟩, ⟨0, sqrt2, 0⟩]

/-- Model of `create_tetrahedron` (src/main.rs lines 112-155): at
iteration 0 return; otherwise halve the scale, and for each offset spawn
a placement at `position + offset * new_scale * 2.0` and recurse there
with the halved scale and `iteration - 1`. -/
def create_tetrahedron {K : Type} [LinearOrderedField K] (sqrt2 : K)
    (position : Vec3 K) (scale : K) : Nat → List (Transform K)
  | 0 => []
  | n + 1 =>
    let new_scale := scale / 2
    (sierpinskiOffsets sqrt2).flatMap fun offset =>
      let new_position := position + offset * new_scale * (2 : K)
      ⟨new_position, Vec3.splat new_scale⟩ ::
        create_tetrahedron sqrt2 new_position new_scale n

/-- The Menger skip condition (src/main.rs line 178): skip the cell when
`(i == 1 && j == 1) || (i == 1 && k == 1) || (j == 1 && k == 1)`. -/
def mengerSkip (i j k : Nat) : Bool :=
  (i == 1 && j == 1) || (i == 1 && k == 1) || (j == 1 && k == 1)

/-- The 27 cells `(i, j, k)` of the nested `for i in 0..3 { for j in 0..3
{ for k in 0..3 { .. } } }` loops of `generate_fractal`, in row-major
source order. -/
def mengerCells : List (Nat × Nat × Nat) :=
  (List.range 3).flatMap fun i =>
    (List.range 3).flatMap fun j =>
      (List.range 3).map fun k => (i, j, k)

/-- Model of `generate_fractal` (src/main.rs lines 159-214): at
iteration 0 return; otherwise walk the 27 cells, skip per `mengerSkip`,
spawn a placement at `position + (index - 1) * scale` componentwise with
the UNCHANGED scale, and recurse there (same scale, `iteration - 1`)
only when `iteration > 1` (with `iteration = n + 1` that is `0 < n`). -/
def generate_fractal {K : Type} [LinearOrderedField K]
    (position : Vec3 K) (scale : K) : Nat → List (Transform K)
  | 0 => []
  | n + 1 =>
    let offset := scale
    mengerCells.flatMap fun c =>
      if mengerSkip c.1 c.2.1 c.2.2 then []
      else
        let new_position : Vec3 K :=
          ⟨position.x + ((c.1 : K) - 1) * offset,
           position.y + ((c.2.1 : K) - 1) * offset,
           position.z + ((c.2.2 : K) - 1) * offset⟩
        ⟨new_position, ⟨scale, scale, scale⟩⟩ ::
          (if 0 < n then generate_fractal new_position scale n else [])

/-- Node count of the Sierpinski generator as a recurrence on depth. -/
def sierpinski_count : Nat → Nat
  | 0 => 0
  | n + 1 => 4 * (1 + sierpinski_count n)

/-- Node count of the Menger generator as a recurrence on depth. -/
def menger_count : Nat → Nat
  | 0 => 0
  | n + 1 => 20 * (1 + menger_count n)

theorem create_tetrahedron_succ {K : Type} [LinearOrderedField K] (sqrt2 : K)
    (p : Vec3 K) (s : K) (n : Nat) :
    create_tetrahedron sqrt2 p s (n + 1) =
      (sierpinskiOffsets sqrt2).flatMap fun offset =>
        ⟨p + offset * (s / 2) * (2 : K), Vec3.splat (s / 2)⟩ ::
          create_tetrahedron sqrt2 (p + offset * (s / 2) * (2 : K)) (s / 2) n := rfl

theorem generate_fractal_succ {K : Type} [LinearOrderedField K]
    (p : Vec3 K) (s : K) (n : Nat) :
    generate_fractal p s (n + 1) =
      mengerCells.flatMap fun c =>
        if mengerSkip c.1 c.2.1 c.2.2 then []
        else
          (⟨⟨p.x + ((c.1 : K) - 1) * s, p.y + ((c.2.1 : K) - 1) * s,
             p.z + ((c.2.2 : K) - 1) * s⟩, ⟨s, s, s⟩⟩ : Transform K) ::
            (if 0 < n then
              generate_fractal
                ⟨p.x + ((c.1 : K) - 1) * s, p.y + ((c.2.1 : K) - 1) * s,
                 p.z + ((c.2.2 : K) - 1) * s⟩ s n
             else []) := rfl

theorem mengerCells_eq :
    mengerCells = [(0, 0, 0), (0, 0, 1), (0, 0, 2), (0, 1, 0), (0, 1, 1),
      (0, 1, 2), (0, 2, 0), (0, 2, 1), (0, 2, 2), (1, 0, 0), (1, 0, 1),
      (1, 0, 2), (1, 1, 0), (1, 1, 1), (1, 1, 2), (1, 2, 0), (1, 2, 1),
      (1, 2, 2), (2, 0, 0), (2, 0, 1), (2, 0, 2), (2, 1, 0), (2, 1, 1),
      (2, 1, 2), (2, 2, 0), (2, 2, 1), (2, 2, 2)] := rfl

theorem length_create_tetrahedron {K : Type} [LinearOrderedField K] (sqrt2 : K) :
    ∀ (n : Nat) (p : Vec3 K) (s : K),
      (create_tetrahedron sqrt2 p s n).length = sierpinski_count n := by
  intro n
  induction n with
  | zero => intro p s; rfl
  | succ m ih =>
    intro p s
    rw [create_tetrahedron_succ]
    simp [sierpinskiOffsets, List.flatMap, ih, sierpinski_count]
    ring

theorem length_generate_fractal {K : Type} [LinearOrderedField K] :
    ∀ (n : Nat) (p : Vec3 K) (s : K),
      (generate_fractal p s n).length = menger_count n := by
  intro n
  induction n with
  | zero => intro p s; rfl
  | succ m ih =>
    intro p s
    have hrec : ∀ q : Vec3 K,
        ((if 0 < m then generate_fractal q s m else []) : List (Transform K)).length =
          menger_count m := by
      intro q
      by_cases h : 0 < m
      · simp [h, ih]
      · have : m = 0 := Nat.eq_zero_of_not_pos h
        simp [h, this, menger_count]
    rw [generate_fractal_succ, mengerCells_eq]
    simp [List.flatMap, mengerSkip, hrec, menger_count]
    ring

theorem sierpinski_count_closed : ∀ n : Nat, 3 * sierpinski_count n + 4 = 4 ^ (n + 1) := by
  intro n
  induction n with
  | zero => rfl
  | succ m ih =>
    have h : 4 ^ (m + 2) = 4 * 4 ^ (m + 1) := by ring
    rw [sierpinski_count, h, ← ih]
    ring

theorem menger_count_closed : ∀ n : Nat, 19 * menger_count n + 20 = 20 ^ (n + 1) := by
  intro n
  induction n with
  | zero => rfl
  | succ m ih =>
    have h : 20 ^ (m + 2) = 20 * 20 ^ (m + 1) := by ring
    rw [menger_count, h, ← ih]
    ring

theorem scale_of_mem_create_tetrahedron {K : Type} [LinearOrderedField K] (sqrt2 : K) :
    ∀ (n : Nat) (p : Vec3 K) (s : K) (t : Transform K),
      t ∈ create_tetrahedron sqrt2 p s n →
        ∃ m : Nat, 1 ≤ m ∧ m ≤ n ∧ t.scale = Vec3.splat (s / 2 ^ m) := by
  intro n
  induction n with
  | zero => intro p s t h; simp [create_tetrahedron] at h
  | succ d ih =>
    intro p s t h
    rw [create_tetrahedron_succ] at h
    rcases List.mem_flatMap.mp h with ⟨o, ho, hmem⟩
    rcases List.mem_cons.mp hmem with heq | hrec
    · refine ⟨1, le_refl 1, by omega, ?_⟩
      rw [heq]
      simp [pow_one]
    · rcases ih _ _ _ hrec with ⟨m, h1, h2, h3⟩
      refine ⟨m + 1, by omega, by omega, ?_⟩
      rw [h3]
      have hdiv : s / 2 / 2 ^ m = s / 2 ^ (m + 1) := by
        rw [div_div, ← pow_succ']
      rw [hdiv]

theorem scale_of_mem_generate_fractal {K : Type} [LinearOrderedField K] :
    ∀ (n : Nat) (p : Vec3 K) (s : K) (t : Transform K),
      t ∈ generate_fractal p s n → t.scale = ⟨s, s, s⟩ := by
  intro n
  induction n with
  | zero => intro p s t h; simp [generate_fractal] at h
  | succ d ih =>
    intro p s t h
    rw [generate_fractal_succ] at h
    rcases List.mem_flatMap.mp h with ⟨c, hc, hmem⟩
    by_cases hskip : mengerSkip c.1 c.2.1 c.2.2 = true
    · rw [if_pos hskip] at hmem
      simp at hmem
    · rw [if_neg hskip] at hmem
      rcases List.mem_cons.mp hmem with heq | hrec
      · rw [heq]
      · by_cases h0 : 0 < d
        · rw [if_pos h0] at hrec
          exact ih _ _ _ hrec
        · rw [if_neg h0] at hrec
          simp at hrec

/-- Model of the mesh-attribute store the source's `setup` uses: the
`ATTRIBUTE_POSITION` slot and the index buffer of a `Mesh`.  Bevy's
`Mesh::insert_attribute` REPLACES the attribute's values wholesale, which
is exactly what the model's `insert_attribute` does. -/
structure MeshData (K : Type) where
  position_attr : Option (List (Vec3 K))
  indices : Option (List Nat)
deriving DecidableEq

/-- Model of `Mesh::new(PrimitiveTopology::TriangleList)`: no attributes,
no indices. -/
def MeshData.new {K : Type} : MeshData K := ⟨none, none⟩

/-- Model of `Mesh::insert_attribute(ATTRIBUTE_POSITION, values)`: the
attribute slot is overwritten with `values`. -/
def MeshData.insert_attribute {K : Type} (m : MeshData K) (values : List (Vec3 K)) :
    MeshData K :=
  ⟨some values, m.indices⟩

/-- Model of `Mesh::set_indices(Some(Indices::U32(idx)))`. -/
def MeshData.set_indices {K : Type} (m : MeshData K) (idx : List Nat) : MeshData K :=
  ⟨m.position_attr, some idx⟩

/-- Number of vertices the mesh ends up with (length of the POSITION
attribute, 0 when absent). -/
def MeshData.vertex_count {K : Type} (m : MeshData K) : Nat :=
  match m.position_attr with
  | none => 0
  | some l => l.length

/-- The index buffer as a list (empty when absent). -/
def MeshData.index_list {K : Type} (m : MeshData K) : List Nat :=
  match m.indices with
  | none => []
  | some l => l

/-- The `vertices` array of `setup` (src/main.rs lines 60-65); `sqrt3`
and `sqrt6` stand for `(3.0f32).sqrt()` and `(6.0f32).sqrt()`. -/
def setup_vertices {K : Type} [LinearOrderedField K] (sqrt3 sqrt6 : K) : List (Vec3 K) :=
  [⟨0, 0, 0⟩, ⟨1, 0, 0⟩, ⟨1 / 2, 0, sqrt3 / 2⟩, ⟨1 / 2, sqrt6 / 3, sqrt3 / 6⟩]

/-- The `indices` array of `setup` (src/main.rs lines 67-72). -/
def setup_indices : List Nat := [0, 1, 2, 0, 2, 3, 0, 3, 1, 1, 3, 2]

/-- Model of the mesh construction of `setup` (src/main.rs lines 57-79):
start from an empty mesh, then `for vertex in &vertices {
mesh.insert_attribute(ATTRIBUTE_POSITION, vec![*vertex]) }` — each call
REPLACING the whole attribute with a one-element list — then set the 12
indices. -/
def setup_mesh {K : Type} [LinearOrderedField K] (sqrt3 sqrt6 : K) : MeshData K :=
  ((setup_vertices sqrt3 sqrt6).foldl
      (fun m v => m.insert_attribute [v]) MeshData.new).set_indices setup_indices

/-- The `BaseMesh` the spec describes, modelled from the spec: all 4
vertices accumulated into the POSITION attribute, then the 12 indices. -/
def build_tetrahedron_spec {K : Type} [LinearOrderedField K] (sqrt3 sqrt6 : K) :
    MeshData K :=
  (MeshData.new.insert_attribute (setup_vertices sqrt3 sqrt6)).set_indices setup_indices

/-- One entity spawned by `setup`, reduced to the two facts the `update`
query cares about: does it carry mesh/material/transform components, and
does it carry the `Shape` marker component. -/
structure SetupEntity where
  has_mesh_material : Bool
  has_shape : Bool
deriving DecidableEq

/-- The three entities `setup` spawns (src/main.rs lines 82-109): the
base tetrahedron `PbrBundle` (mesh and material but NO `Shape` marker),
the point light, and the camera. -/
def setup_entities : List SetupEntity :=
  [⟨true, false⟩, ⟨false, false⟩, ⟨false, false⟩]

/-- The entities matched by `update`'s query
`Query<(&Handle<Mesh>, &Handle<StandardMaterial>, &Transform, &Shape)>`:
those with mesh/material components and the `Shape` marker. -/
def shape_query (entities : List SetupEntity) : List SetupEntity :=
  entities.filter fun e => e.has_mesh_material && e.has_shape

/-- One row of `update`'s query, with opaque mesh/material handles. -/
structure Placeholder (K : Type) where
  mesh : Nat
  material : Nat
  transform : Transform K
deriving DecidableEq

/-- One `PbrBundle` spawned by the driver: a placement of the
placeholder's mesh and material handles at a generated transform. -/
structure FractalInstance (K : Type) where
  mesh : Nat
  material : Nat
  transform : Transform K
deriving DecidableEq

/-- `main` inserts the resource `NeedsUpdate(true)` (src/main.rs line
12): the driver starts with the trigger set (the spec's Pending state). -/
def initial_needs_update : Bool := true

/-- Model of one tick of the `update` system (src/main.rs lines
216-237): when the trigger is set, for each query row call
`generate_fractal(Vec3::new(0,0,0), 1.0, 4, ..)` and spawn one instance
per produced transform, then clear the trigger; otherwise do nothing.
Returns the trigger after the tick and the instances spawned during it. -/
def update {K : Type} [LinearOrderedField K] (needs_update : Bool)
    (query : List (Placeholder K)) : Bool × List (FractalInstance K) :=
  if needs_update then
    (false,
     query.flatMap fun ph =>
       (generate_fractal (⟨0, 0, 0⟩ : Vec3 K) 1 4).map fun t =>
         ⟨ph.mesh, ph.material, t⟩)
  else (needs_update, [])

/-- The trigger after `n` ticks of `update` against a fixed query. -/
def needs_update_after {K : Type} [LinearOrderedField K]
    (query : List (Placeholder K)) : Nat → Bool
  | 0 => initial_needs_update
  | n + 1 => (update (needs_update_after query n) query).1

theorem needs_update_after_succ_false {K : Type} [LinearOrderedField K]
    (query : List (Placeholder K)) :
    ∀ n : Nat, needs_update_after query (n + 1) = false := by
  intro n
  induction n with
  | zero => rfl
  | succ m ih =>
    show (update (needs_update_after query (m + 1)) query).1 = false
    rw [ih]
    rfl

theorem zero_add_smul_two {K : Type} [LinearOrderedField K] (o : Vec3 K) :
    (⟨0, 0, 0⟩ : Vec3 K) + o * ((1 : K) / 2) * (2 : K) = o := by
  have h : ∀ a : K, 0 + a * ((1 : K) / 2) * 2 = a := by intro a; ring
  show (⟨0 + o.x * ((1 : K) / 2) * 2, 0 + o.y * ((1 : K) / 2) * 2,
         0 + o.z * ((1 : K) / 2) * 2⟩ : Vec3 K) = o
  rw [h, h, h]

/-- Claim C1: for every depth (and any position and scale) the Sierpinski
generator emits exactly 4 * (4 ^ depth - 1) / 3 placements; the count
satisfies N(0) = 0 and N(depth + 1) = 4 + 4 * N(depth). -/
theorem C1_sierpinski_node_count {K : Type} [LinearOrderedField K] (sqrt2 : K)
    (p : Vec3 K) (s : K) (d : Nat) :
    (create_tetrahedron sqrt2 p s d).length = 4 * (4 ^ d - 1) / 3
    ∧ (create_tetrahedron sqrt2 p s 0).length = 0
    ∧ (create_tetrahedron sqrt2 p s (d + 1)).length =
        4 + 4 * (create_tetrahedron sqrt2 p s d).length := by
  refine ⟨?_, rfl, ?_⟩
  · simp only [length_create_tetrahedron]
    have hc := sierpinski_count_closed d
    have hp : (4 : Nat) ^ (d + 1) = 4 * 4 ^ d := by ring
    have h1 : (1 : Nat) ≤ 4 ^ d := Nat.one_le_pow d 4 (by norm_num)
    omega
  · simp only [length_create_tetrahedron, sierpinski_count]
    ring

theorem C1_witness :
    (create_tetrahedron ((3 : ℚ) / 2) ⟨0, 0, 0⟩ 1 3).length = 4 * (4 ^ 3 - 1) / 3 :=
  (C1_sierpinski_node_count ((3 : ℚ) / 2) ⟨0, 0, 0⟩ 1 3).1

/-- Claim C2: for every depth (and any position and scale) the Menger
generator emits exactly 20 * (20 ^ depth - 1) / 19 placements; the count
satisfies N(0) = 0 and N(depth + 1) = 20 + 20 * N(depth). -/
theorem C2_menger_node_count {K : Type} [LinearOrderedField K]
    (p : Vec3 K) (s : K) (d : Nat) :
    (generate_fractal p s d).length = 20 * (20 ^ d - 1) / 19
    ∧ (generate_fractal p s 0).length = 0
    ∧ (generate_fractal p s (d + 1)).length =
        20 + 20 * (generate_fractal p s d).length := by
  refine ⟨?_, rfl, ?_⟩
  · simp only [length_generate_fractal]
    have hc := menger_count_closed d
    have hp : (20 : Nat) ^ (d + 1) = 20 * 20 ^ d := by ring
    have h1 : (1 : Nat) ≤ 20 ^ d := Nat.one_le_pow d 20 (by norm_num)
    omega
  · simp only [length_generate_fractal, menger_count]
    ring

theorem C2_witness :
    (generate_fractal (⟨0, 0, 0⟩ : Vec3 ℚ) 1 2).length = 20 * (20 ^ 2 - 1) / 19 :=
  (C2_menger_node_count (⟨0, 0, 0⟩ : Vec3 ℚ) 1 2).1

/-- Claim C3 (evaluation of the defective code): the mesh built by
`setup` ends with exactly ONE vertex — each `insert_attribute` call
replaces the whole POSITION attribute, so only the last vertex survives
— while its 12 indices reach index 3, so it is NOT the case that every
index is below the vertex count.  The spec-modelled construction that
accumulates all four vertices does have 4 vertices, 12 in-bounds
indices, and 12 / 3 = 4 triangles. -/
theorem C3_setup_mesh_degenerate {K : Type} [LinearOrderedField K] (sqrt3 sqrt6 : K) :
    (setup_mesh sqrt3 sqrt6).vertex_count = 1
    ∧ (setup_mesh sqrt3 sqrt6).index_list.length = 12
    ∧ ¬ (∀ i ∈ (setup_mesh sqrt3 sqrt6).index_list,
          i < (setup_mesh sqrt3 sqrt6).vertex_count)
    ∧ (build_tetrahedron_spec sqrt3 sqrt6).vertex_count = 4
    ∧ (build_tetrahedron_spec sqrt3 sqrt6).index_list.length = 12
    ∧ (∀ i ∈ (build_tetrahedron_spec sqrt3 sqrt6).index_list,
        i < (build_tetrahedron_spec sqrt3 sqrt6).vertex_count)
    ∧ (build_tetrahedron_spec sqrt3 sqrt6).index_list.length / 3 = 4 := by
  have hidx : (setup_mesh sqrt3 sqrt6).index_list = setup_indices := rfl
  have hidx2 : (build_tetrahedron_spec sqrt3 sqrt6).index_list = setup_indices := rfl
  refine ⟨rfl, rfl, ?_, rfl, rfl, ?_, ?_⟩
  · intro hall
    have h3 := hall 3 (by rw [hidx]; decide)
    have hv : (setup_mesh sqrt3 sqrt6).vertex_count = 1 := rfl
    omega
  · intro i hi
    rw [hidx2] at hi
    have hv : (build_tetrahedron_spec sqrt3 sqrt6).vertex_count = 4 := rfl
    rw [hv]
    revert hi
    revert i
    decide
  · rw [hidx2]
    rfl

/-- Claim C4 (counterexample): the Menger generator's recursive child
calls reuse the parent scale unchanged.  The depth-2 run from scale 1
emits 420 placements — 400 of them spawned by recursive child calls —
and every single one has scale exactly (1, 1, 1): no emitted placement
has a scale below the initial scale, so scale does not strictly decrease
with depth by a factor in (0, 1). -/
theorem C4_counterexample_menger_scale_constant :
    (generate_fractal (⟨0, 0, 0⟩ : Vec3 ℚ) 1 2).length = 420
    ∧ (∀ t ∈ generate_fractal (⟨0, 0, 0⟩ : Vec3 ℚ) 1 2,
        t.scale = (⟨1, 1, 1⟩ : Vec3 ℚ))
    ∧ ¬ (∃ t ∈ generate_fractal (⟨0, 0, 0⟩ : Vec3 ℚ) 1 2, t.scale.x < 1) := by
  refine ⟨?_, ?_, ?_⟩
  · rw [length_generate_fractal]
    rfl
  · intro t ht
    exact scale_of_mem_generate_fractal 2 _ _ t ht
  · rintro ⟨t, ht, hlt⟩
    have hs := scale_of_mem_generate_fractal 2 _ _ t ht
    rw [hs] at hlt
    norm_num at hlt

/-- Claim C4 (amended): the Sierpinski generator's recursive child calls
use scale s / 2 with the fixed factor 1/2 strictly between 0 and 1, so
every Sierpinski placement at relative depth m has scale s / 2 ^ m with
m ≥ 1; the Menger generator's recursive child calls reuse the parent
scale unchanged, so every Menger placement at any depth keeps the
initial scale. -/
theorem C4_amended_scale_behaviour {K : Type} [LinearOrderedField K] (sqrt2 : K) :
    (0 < (1 : K) / 2 ∧ (1 : K) / 2 < 1)
    ∧ (∀ (p : Vec3 K) (s : K) (n : Nat),
        create_tetrahedron sqrt2 p s (n + 1) =
          (sierpinskiOffsets sqrt2).flatMap fun offset =>
            ⟨p + offset * (s / 2) * (2 : K), Vec3.splat (s / 2)⟩ ::
              create_tetrahedron sqrt2 (p + offset * (s / 2) * (2 : K)) (s / 2) n)
    ∧ (∀ (d : Nat) (p : Vec3 K) (s : K) (t : Transform K),
        t ∈ create_tetrahedron sqrt2 p s d →
          ∃ m : Nat, 1 ≤ m ∧ m ≤ d ∧ t.scale = Vec3.splat (s / 2 ^ m))
    ∧ (∀ (d : Nat) (p : Vec3 K) (s : K) (t : Transform K),
        t ∈ generate_fractal p s d → t.scale = ⟨s, s, s⟩) :=
  ⟨⟨by norm_num, by norm_num⟩,
   fun p s n => create_tetrahedron_succ sqrt2 p s n,
   fun d p s t h => scale_of_mem_create_tetrahedron sqrt2 d p s t h,
   fun d p s t h => scale_of_mem_generate_fractal d p s t h⟩

theorem C4_witness : 0 < (1 : ℚ) / 2 ∧ (1 : ℚ) / 2 < 1 :=
  (C4_amended_scale_behaviour ((3 : ℚ) / 2)).1

/-- Claim C5: a Menger cell (i, j, k) in the 3 x 3 x 3 grid is skipped
iff at least two of its three indices equal 1; of the 27 cells exactly 7
are skipped and exactly 20 survive, and one subdivision level emits
exactly 20 placements. -/
theorem C5_menger_skip_rule {K : Type} [LinearOrderedField K] :
    (∀ i j k : Fin 3,
      mengerSkip i.val j.val k.val = true ↔ 2 ≤ ([i.val, j.val, k.val].count 1))
    ∧ mengerCells.length = 27
    ∧ (mengerCells.filter fun c => mengerSkip c.1 c.2.1 c.2.2).length = 7
    ∧ (mengerCells.filter fun c => !mengerSkip c.1 c.2.1 c.2.2).length = 20
    ∧ ∀ (p : Vec3 K) (s : K), (generate_fractal p s 1).length = 20 := by
  refine ⟨by decide, by decide, by decide, by decide, ?_⟩
  intro p s
  rw [length_generate_fractal]
  rfl

theorem C5_witness :
    (mengerSkip 1 1 0 = true ↔ 2 ≤ ([1, 1, 0].count 1))
    ∧ (generate_fractal (⟨0, 0, 0⟩ : Vec3 ℚ) 1 1).length = 20 :=
  ⟨(C5_menger_skip_rule (K := ℚ)).1 1 1 0,
   (C5_menger_skip_rule (K := ℚ)).2.2.2.2 ⟨0, 0, 0⟩ 1⟩

/-- Claim C6: every Sierpinski placement at relative depth m has scale
initial_scale / 2 ^ m (each child halves its parent's scale); a child's
translation is parent_position + offset * new_scale * 2; and generation
at position (0,0,0), scale 1, depth 1 yields exactly the 4 canonical
offsets as translations, each with scale 1/2. -/
theorem C6_sierpinski_child_placements {K : Type} [LinearOrderedField K] (sqrt2 : K) :
    (∀ (d : Nat) (p : Vec3 K) (s : K) (t : Transform K),
        t ∈ create_tetrahedron sqrt2 p s d →
          ∃ m : Nat, 1 ≤ m ∧ m ≤ d ∧ t.scale = Vec3.splat (s / 2 ^ m))
    ∧ (∀ (p : Vec3 K) (s : K) (n : Nat),
        create_tetrahedron sqrt2 p s (n + 1) =
          (sierpinskiOffsets sqrt2).flatMap fun offset =>
            ⟨p + offset * (s / 2) * (2 : K), Vec3.splat (s / 2)⟩ ::
              create_tetrahedron sqrt2 (p + offset * (s / 2) * (2 : K)) (s / 2) n)
    ∧ create_tetrahedron sqrt2 ⟨0, 0, 0⟩ 1 1 =
        (sierpinskiOffsets sqrt2).map fun offset =>
          ⟨offset, Vec3.splat ((1 : K) / 2)⟩ := by
  refine ⟨fun d p s t h => scale_of_mem_create_tetrahedron sqrt2 d p s t h,
    fun p s n => create_tetrahedron_succ sqrt2 p s n, ?_⟩
  rw [create_tetrahedron_succ]
  simp only [zero_add_smul_two, sierpinskiOffsets, create_tetrahedron,
    List.flatMap_cons, List.flatMap_nil, List.map_cons, List.map_nil,
    List.cons_append, List.nil_append, List.append_nil]

theorem C6_witness :
    ∃ m : Nat, 1 ≤ m ∧ m ≤ 1 ∧
      (⟨⟨1, 0, -(1 / ((3 : ℚ) / 2))⟩, Vec3.splat ((1 : ℚ) / 2)⟩ : Transform ℚ).scale =
        Vec3.splat ((1 : ℚ) / 2 ^ m) :=
  (C6_sierpinski_child_placements ((3 : ℚ) / 2)).1 1 ⟨0, 0, 0⟩ 1
    ⟨⟨1, 0, -(1 / ((3 : ℚ) / 2))⟩, Vec3.splat ((1 : ℚ) / 2)⟩ (by
      rw [(C6_sierpinski_child_placements ((3 : ℚ) / 2)).2.2]
      simp only [sierpinskiOffsets, List.map_cons, List.map_nil]
      exact List.mem_cons_self _ _)

/-- Claim C7: for every position and scale, either generator at depth 0
returns the empty placement list — a no-op, not an error. -/
theorem C7_depth_zero_noop {K : Type} [LinearOrderedField K] (sqrt2 : K)
    (p : Vec3 K) (s : K) :
    create_tetrahedron sqrt2 p s 0 = [] ∧ generate_fractal p s 0 = [] :=
  ⟨rfl, rfl⟩

theorem C7_witness :
    create_tetrahedron ((3 : ℚ) / 2) ⟨0, 0, 0⟩ 1 0 = []
    ∧ generate_fractal (⟨0, 0, 0⟩ : Vec3 ℚ) 1 0 = [] :=
  C7_depth_zero_noop ((3 : ℚ) / 2) ⟨0, 0, 0⟩ 1

/-- Claim C8: the driver's trigger starts set (Pending); on a tick with
the trigger set it invokes the Menger generator at origin (0,0,0), scale
1, depth 4 for each query row and clears the trigger (Done); with the
trigger clear a tick does nothing; after the first tick the trigger is
false on every later tick and no further instances are spawned, so
generation happens exactly once. -/
theorem C8_driver_one_shot {K : Type} [LinearOrderedField K] :
    initial_needs_update = true
    ∧ (∀ query : List (Placeholder K),
        update true query =
          (false,
           query.flatMap fun ph =>
             (generate_fractal (⟨0, 0, 0⟩ : Vec3 K) 1 4).map fun t =>
               ⟨ph.mesh, ph.material, t⟩))
    ∧ (∀ query : List (Placeholder K), update false query = (false, []))
    ∧ (∀ (query : List (Placeholder K)) (n : Nat),
        needs_update_after query (n + 1) = false)
    ∧ (∀ (query : List (Placeholder K)) (n : Nat),
        (update (needs_update_after query (n + 1)) query).2 = []) := by
  refine ⟨rfl, fun query => rfl, fun query => rfl,
    fun query n => needs_update_after_succ_false query n, ?_⟩
  intro query n
  rw [needs_update_after_succ_false query n]
  rfl

theorem C8_witness :
    update true ([] : List (Placeholder ℚ)) = (false, [])
    ∧ needs_update_after ([] : List (Placeholder ℚ)) 1 = false :=
  ⟨(C8_driver_one_shot (K := ℚ)).2.1 [], (C8_driver_one_shot (K := ℚ)).2.2.2.1 [] 0⟩

/-- Claim C9: both generators are total functions of their depth
argument: depth 0 returns at once, every recursive call occurs at depth
exactly one less (well-founded structural recursion), and for every
position, scale and depth the run completes with a finite list of the
recursively determined length. -/
theorem C9_generators_total {K : Type} [LinearOrderedField K] (sqrt2 : K) :
    (∀ (p : Vec3 K) (s : K),
        create_tetrahedron sqrt2 p s 0 = [] ∧ generate_fractal p s 0 = [])
    ∧ (∀ (p : Vec3 K) (s : K) (n : Nat),
        create_tetrahedron sqrt2 p s (n + 1) =
          (sierpinskiOffsets sqrt2).flatMap fun offset =>
            ⟨p + offset * (s / 2) * (2 : K), Vec3.splat (s / 2)⟩ ::
              create_tetrahedron sqrt2 (p + offset * (s / 2) * (2 : K)) (s / 2) n)
    ∧ (∀ (p : Vec3 K) (s : K) (n : Nat),
        generate_fractal p s (n + 1) =
          mengerCells.flatMap fun c =>
            if mengerSkip c.1 c.2.1 c.2.2 then []
            else
              (⟨⟨p.x + ((c.1 : K) - 1) * s, p.y + ((c.2.1 : K) - 1) * s,
                 p.z + ((c.2.2 : K) - 1) * s⟩, ⟨s, s, s⟩⟩ : Transform K) ::
                (if 0 < n then
                  generate_fractal
                    ⟨p.x + ((c.1 : K) - 1) * s, p.y + ((c.2.1 : K) - 1) * s,
                     p.z + ((c.2.2 : K) - 1) * s⟩ s n
                 else []))
    ∧ (∀ (p : Vec3 K) (s : K) (n : Nat),
        (create_tetrahedron sqrt2 p s n).length = sierpinski_count n
        ∧ (generate_fractal p s n).length = menger_count n) :=
  ⟨fun p s => ⟨rfl, rfl⟩,
   fun p s n => create_tetrahedron_succ sqrt2 p s n,
   fun p s n => generate_fractal_succ p s n,
   fun p s n => ⟨length_create_tetrahedron sqrt2 n p s, length_generate_fractal n p s⟩⟩

theorem C9_witness :
    (create_tetrahedron ((3 : ℚ) / 2) ⟨0, 0, 0⟩ 1 2).length = sierpinski_count 2
    ∧ (generate_fractal (⟨0, 0, 0⟩ : Vec3 ℚ) 1 2).length = menger_count 2 :=
  (C9_generators_total ((3 : ℚ) / 2)).2.2.2 ⟨0, 0, 0⟩ 1 2

/-- Claim C10: the base tetrahedron is spawned by `setup` without the
`Shape` marker (and the light and camera carry neither mesh nor marker),
so the driver's query matches zero entities; on the first tick the
driver nonetheless clears the trigger, invoking no generator and
spawning zero fractal instances. -/
theorem C10_empty_query_still_clears {K : Type} [LinearOrderedField K] :
    shape_query setup_entities = []
    ∧ initial_needs_update = true
    ∧ update initial_needs_update ([] : List (Placeholder K)) = (false, [])
    ∧ needs_update_after ([] : List (Placeholder K)) 1 = false :=
  ⟨rfl, rfl, rfl, rfl⟩

theorem C10_witness :
    shape_query setup_entities = []
    ∧ initial_needs_update = true
    ∧ update initial_needs_update ([] : List (Placeholder ℚ)) = (false, [])
    ∧ needs_update_after ([] : List (Placeholder ℚ)) 1 = false :=
  C10_empty_query_still_clears

end Fractal3D
